import Mathlib

/-!
Shallow embedding of the real-time messaging client of the repository
(web-app front end): the zustand chat store (store/chat-store.ts) and the
WebSocket session hooks (hooks/use-websocket.ts).  Three hook variants exist
in the source; the user-centric reconnecting variant (useUserWebSocket with
MAX_RECONNECT_ATTEMPTS) is embedded as Session with its event handlers, and
the legacy per-chat variant (useWebSocket) is embedded as
legacyHandleMessage.  Numeric user ids of the user-centric variant are
embedded as their decimal strings; ids are opaque tokens never inspected by
the embedded code.
-/

/-- A client-side message record (types Message in web-app; the union of the
fields of the string-id and number-id variants, optional fields as Option).
Field named typ embeds the JS field named type. -/
structure Message where
  message_id : String
  chat_id : String
  sender_id : String
  content : String
  created_at : String
  typ : String
  sender_username : Option String
  sender_name : Option String
  upload_status : Option String
  s3_bucket : Option String
  s3_key : Option String
  deriving Repr, DecidableEq

/-- JS object spread: merged = braces-spread of existing then message, so
every key carried by the incoming object overrides the existing one.  Every
call site of addMessage constructs the incoming message object with all of
its keys present (optional ones possibly undefined, which still overrides),
so the merged record takes the incoming value for every field. -/
def spreadMerge (existing incoming : Message) : Message :=
  { message_id := incoming.message_id
    chat_id := incoming.chat_id
    sender_id := incoming.sender_id
    content := incoming.content
    created_at := incoming.created_at
    typ := incoming.typ
    sender_username := incoming.sender_username
    sender_name := incoming.sender_name
    upload_status := incoming.upload_status
    s3_bucket := incoming.s3_bucket
    s3_key := incoming.s3_key }

/-- The list upsert of chat-store.ts addMessage: findIndex on message_id;
if found, replace the first matching entry with the spread-merge and keep
everything else in place; otherwise append at the end. -/
def addMessageList : List Message → Message → List Message
  | [], m => [m]
  | x :: xs, m =>
      if x.message_id == m.message_id then
        spreadMerge x m :: xs
      else
        x :: addMessageList xs m

/-- A chat list entry (types Chat); only the id is inspected by the embedded
operations. -/
structure Chat where
  id : String
  chatName : String
  deriving Repr, DecidableEq

/-- The zustand chat store state (chat-store.ts ChatState), with
messagesByChat embedded as a total function defaulting to the empty list
(the code reads state.messagesByChat with a fallback to the empty list). -/
structure ChatState where
  userId : Option Nat
  username : Option String
  name : Option String
  chats : List Chat
  selectedChatId : Option String
  messagesByChat : String → List Message

/-- chat-store.ts addMessage: upsert the message into the list of its chat,
leaving every other key and every other store field alone. -/
def ChatState.addMessage (s : ChatState) (chatId : String) (m : Message) :
    ChatState :=
  { s with
    messagesByChat := fun c =>
      if c = chatId then addMessageList (s.messagesByChat chatId) m
      else s.messagesByChat c }

/-- chat-store.ts bumpChat: move the chat with the given id to the front of
the chats list; no-op when absent. -/
def ChatState.bumpChat (s : ChatState) (chatId : String) : ChatState :=
  match s.chats.find? (fun c => c.id == chatId) with
  | none => s
  | some chat =>
      { s with chats := chat :: s.chats.filter (fun c => !(c.id == chatId)) }

/-- Number of entries of the list carrying the given message_id. -/
def countId (l : List Message) (id : String) : Nat :=
  l.countP (fun x => x.message_id == id)

lemma spreadMerge_message_id (a b : Message) :
    (spreadMerge a b).message_id = b.message_id := rfl

lemma countId_addMessageList (l : List Message) (m : Message) :
    countId (addMessageList l m) m.message_id =
      if countId l m.message_id = 0 then 1 else countId l m.message_id := by
  induction l with
  | nil => simp [addMessageList, countId]
  | cons x xs ih =>
      by_cases h : x.message_id = m.message_id
      · simp [addMessageList, countId, List.countP_cons, h, spreadMerge]
      · have hb : (x.message_id == m.message_id) = false := by
          simp [h]
        have hxx : countId (x :: xs) m.message_id = countId xs m.message_id := by
          simp [countId, List.countP_cons, hb]
        have hax : countId (addMessageList (x :: xs) m) m.message_id
            = countId (addMessageList xs m) m.message_id := by
          simp [addMessageList, hb, countId, List.countP_cons]
        rw [hax, hxx, ih]

lemma mem_id_addMessageList (l : List Message) (m : Message) :
    ∃ x ∈ addMessageList l m, x.message_id = m.message_id := by
  induction l with
  | nil => exact ⟨m, by simp [addMessageList]⟩
  | cons y ys ih =>
      by_cases h : y.message_id = m.message_id
      · refine ⟨spreadMerge y m, ?_, rfl⟩
        simp [addMessageList, h]
      · obtain ⟨x, hx, hid⟩ := ih
        refine ⟨x, ?_, hid⟩
        have hb : (y.message_id == m.message_id) = false := by simp [h]
        simp [addMessageList, hb, hx]

lemma mem_id_addMessageList_mono (l : List Message) (m : Message)
    (id : String) (h : ∃ x ∈ l, x.message_id = id) :
    ∃ x ∈ addMessageList l m, x.message_id = id := by
  induction l with
  | nil => simpa using h
  | cons y ys ih =>
      obtain ⟨x, hx, hid⟩ := h
      by_cases hy : y.message_id = m.message_id
      · rcases List.mem_cons.mp hx with hxy | hxys
        · refine ⟨spreadMerge y m, ?_, ?_⟩
          · simp [addMessageList, hy]
          · subst hxy
            rw [spreadMerge_message_id, ← hy, hid]
        · refine ⟨x, ?_, hid⟩
          simp [addMessageList, hy]
          exact Or.inr hxys
      · have hb : (y.message_id == m.message_id) = false := by simp [hy]
        rcases List.mem_cons.mp hx with hxy | hxys
        · subst hxy
          exact ⟨x, by simp [addMessageList, hb], hid⟩
        · obtain ⟨z, hz, hzid⟩ := ih ⟨x, hxys, hid⟩
          exact ⟨z, by simp [addMessageList, hb, hz], hzid⟩

lemma map_id_addMessageList_of_mem (l : List Message) (m : Message)
    (h : countId l m.message_id ≠ 0) :
    (addMessageList l m).map (fun x => x.message_id) =
      l.map (fun x => x.message_id) := by
  induction l with
  | nil => simp [countId] at h
  | cons y ys ih =>
      by_cases hy : y.message_id = m.message_id
      · simp [addMessageList, hy, spreadMerge]
      · have hb : (y.message_id == m.message_id) = false := by simp [hy]
        have hcount : countId ys m.message_id ≠ 0 := by
          simpa [countId, List.countP_cons, hb] using h
        simp [addMessageList, hb, ih hcount]

lemma length_addMessageList_of_mem (l : List Message) (m : Message)
    (h : countId l m.message_id ≠ 0) :
    (addMessageList l m).length = l.length := by
  have := map_id_addMessageList_of_mem l m h
  calc (addMessageList l m).length
      = ((addMessageList l m).map (fun x => x.message_id)).length := by
        simp
    _ = (l.map (fun x => x.message_id)).length := by rw [this]
    _ = l.length := by simp

lemma addMessage_messagesByChat_self (s : ChatState) (c : String)
    (m : Message) :
    (s.addMessage c m).messagesByChat c =
      addMessageList (s.messagesByChat c) m := by
  simp [ChatState.addMessage]

/-- An outbound wire frame sent by the client (JSON object per frame);
absent keys are none.  Field named typ embeds the JSON field named type. -/
structure OutFrame where
  typ : String
  chat_id : Option String
  content : Option String
  message_id : Option String
  recipient_id : Option String
  sender_username : Option String
  sender_name : Option String
  deriving Repr, DecidableEq

/-- Shorthand for a frame with all payload fields absent. -/
def emptyFrame (t : String) : OutFrame :=
  { typ := t, chat_id := none, content := none, message_id := none,
    recipient_id := none, sender_username := none, sender_name := none }

/-- The acknowledgement frame of the user-centric hook:
type ack-message-received plus the message_id. -/
def ackFrame (id : String) : OutFrame :=
  { emptyFrame "ack-message-received" with message_id := some id }

/-- Inbound wire frame of the user-centric hook (the WSMessage union of
use-websocket.ts); numeric ids embedded as decimal strings. -/
structure WireChatMessage where
  message_id : String
  chat_id : String
  sender_id : String
  sender_username : Option String
  sender_name : Option String
  content : String
  created_at : String
  upload_status : Option String
  s3_bucket : Option String
  s3_key : Option String
  deriving Repr, DecidableEq

structure WireInviteReceivedData where
  invite_id : Nat
  invitor_id : Nat
  invitor_username : String
  invitor_name : String
  created_at : String
  deriving Repr, DecidableEq

structure WireInviteAnswerData where
  invite_id : Nat
  invitee_id : Nat
  invitee_username : String
  invitee_name : String
  status : String
  deriving Repr, DecidableEq

/-- The discriminated union of inbound frames handled by the user-centric
handleMessage (use-websocket.ts WSMessage). -/
inductive WSMessage where
  | connected (user_id : Nat) (subscribed_chats : List String)
      (timestamp : String)
  | message (m : WireChatMessage)
  | system (content : String) (chat_id : String) (timestamp : String)
  | subscribed (chat_id : String) (success : Bool)
  | unsubscribed (chat_id : String) (success : Bool)
  | error (content : String)
  | pong (timestamp : String)
  | invite_received (d : WireInviteReceivedData)
  | invite_accepted (d : WireInviteAnswerData)
  | invite_rejected (d : WireInviteAnswerData)
  deriving Repr, DecidableEq

/-- A contact invite with user data (types InviteWithUsers). -/
structure InviteWithUsers where
  id : Nat
  invitor_id : Nat
  invitor_username : String
  invitor_name : String
  invitee_id : Nat
  invitee_username : String
  invitee_name : String
  status : String
  created_at : String
  updated_at : String
  deriving Repr, DecidableEq

/-- invite-store.ts addPendingInvite: prepend unless an invite with the same
id is already present. -/
def addPendingInvite (l : List InviteWithUsers) (inv : InviteWithUsers) :
    List InviteWithUsers :=
  if l.any (fun i => i.id == inv.id) then l else inv :: l

/-- invite-store.ts updateSentInviteStatus: rewrite the status of the invite
with the given id. -/
def updateSentInviteStatus (l : List InviteWithUsers) (inviteId : Nat)
    (status : String) : List InviteWithUsers :=
  l.map (fun i => if i.id == inviteId then { i with status := status } else i)

/-- One item of the inbox sync endpoint response (syncInbox of
use-websocket.ts); the extra attachment keys are read through a cast and may
be absent. -/
structure InboxItem where
  message_id : String
  chat_id : String
  sender_id : String
  content : String
  created_at : String
  upload_status : Option String
  s3_bucket : Option String
  s3_object_key : Option String
  s3_key : Option String
  deriving Repr, DecidableEq

/-- The Message record built from a sync item in syncInbox (s3_key is
s3_object_key if present, else s3_key, mirroring the JS or-expression). -/
def inboxItemToMessage (item : InboxItem) : Message :=
  { message_id := item.message_id
    chat_id := item.chat_id
    sender_id := item.sender_id
    content := item.content
    created_at := item.created_at
    typ := "message"
    sender_username := none
    sender_name := none
    upload_status := item.upload_status
    s3_bucket := item.s3_bucket
    s3_key := item.s3_object_key.orElse (fun _ => item.s3_key) }

/-- The Message record built from a live message frame in the user-centric
handleMessage. -/
def wireToMessage (wm : WireChatMessage) : Message :=
  { message_id := wm.message_id
    chat_id := wm.chat_id
    sender_id := wm.sender_id
    content := wm.content
    created_at := wm.created_at
    typ := "message"
    sender_username := wm.sender_username
    sender_name := wm.sender_name
    upload_status := wm.upload_status
    s3_bucket := wm.s3_bucket
    s3_key := wm.s3_key }

/-- use-websocket.ts reconnection config MAX_RECONNECT_ATTEMPTS. -/
def MAX_RECONNECT_ATTEMPTS : Nat := 5

/-- use-websocket.ts reconnection config BASE_RECONNECT_DELAY (ms). -/
def BASE_RECONNECT_DELAY : Nat := 1000

/-- State of one useUserWebSocket session (the user-centric reconnecting
hook): the React state and refs of the hook plus the chat and invite store
slices it writes through.  wsOpen embeds wsRef.current.readyState being
OPEN; reconnectTimer carries the delay of the pending setTimeout when one is
scheduled. -/
structure Session where
  userId : Nat
  store : ChatState
  pendingInvites : List InviteWithUsers
  sentInvites : List InviteWithUsers
  wsOpen : Bool
  isConnected : Bool
  isSyncing : Bool
  subscribedChats : List String
  reconnectAttempts : Nat
  reconnectTimer : Option Nat
  shouldReconnect : Bool

/-- One iteration of the syncInbox for-loop of the user-centric hook: merge
the item through the store addMessage, bump its chat, and send one
ack-message-received frame when the transport is still open. -/
def syncStep (acc : Session × List OutFrame) (item : InboxItem) :
    Session × List OutFrame :=
  let st :=
    ((acc.1.store.addMessage item.chat_id
      (inboxItemToMessage item)).bumpChat item.chat_id)
  let s2 := { acc.1 with store := st }
  let frames :=
    if s2.wsOpen then acc.2 ++ [ackFrame item.message_id] else acc.2
  (s2, frames)

/-- syncInbox of the user-centric hook: bail out unless the transport is
open; otherwise run syncStep over the sync response items; isSyncing is
raised for the duration. -/
def syncInbox (s : Session) (items : List InboxItem) :
    Session × List OutFrame :=
  if s.wsOpen then
    let out := items.foldl syncStep ({ s with isSyncing := true }, [])
    ({ out.1 with isSyncing := false }, out.2)
  else (s, [])

/-- ws.onopen of the user-centric hook: the transport is now open,
isConnected is set, the attempt counter resets to zero, and syncInbox runs
with the sync endpoint response. -/
def wsOnOpen (s : Session) (items : List InboxItem) :
    Session × List OutFrame :=
  syncInbox
    { s with wsOpen := true, isConnected := true, reconnectAttempts := 0 }
    items

/-- ws.onclose of the user-centric hook: clear isConnected and the
subscription list; on an unclean close with reconnection still wanted and
attempts below the maximum, schedule a reconnect timer with delay
BASE_RECONNECT_DELAY times two to the attempt count.  The second component
is the delay scheduled by this event, none when nothing was scheduled. -/
def wsOnClose (s : Session) (wasClean : Bool) : Session × Option Nat :=
  let s1 := { s with wsOpen := false, isConnected := false,
                     subscribedChats := [] }
  if !wasClean && s1.shouldReconnect &&
      decide (s1.reconnectAttempts < MAX_RECONNECT_ATTEMPTS) then
    let delay := BASE_RECONNECT_DELAY * 2 ^ s1.reconnectAttempts
    ({ s1 with reconnectTimer := some delay }, some delay)
  else (s1, none)

/-- The setTimeout callback scheduled by ws.onclose: the timer is spent,
the attempt counter is bumped, and connect() opens a fresh socket that is
not yet open. -/
def fireReconnect (s : Session) : Session :=
  { s with reconnectTimer := none,
           reconnectAttempts := s.reconnectAttempts + 1,
           wsOpen := false }

/-- The effect cleanup of the user-centric hook (unmount / explicit
teardown): forbid reconnection, clear any pending reconnect timer, and
close the socket. -/
def teardown (s : Session) : Session :=
  { s with shouldReconnect := false, reconnectTimer := none,
           wsOpen := false }

/-- handleMessage of the user-centric hook.  The raw argument is the parse
result of the frame: none embeds a payload JSON.parse throws on, handled by
the catch clause with only a console.error.  now embeds Date.now() for the
system-message id.  Returns the new state and the frames sent. -/
def handleMessage (s : Session) (now : Nat) (raw : Option WSMessage) :
    Session × List OutFrame :=
  match raw with
  | none => (s, [])
  | some (.connected _uid chats _ts) =>
      ({ s with subscribedChats := chats }, [])
  | some (.message wm) =>
      let st := (s.store.addMessage wm.chat_id (wireToMessage wm)).bumpChat
        wm.chat_id
      ({ s with store := st },
        if s.wsOpen then [ackFrame wm.message_id] else [])
  | some (.system content chat_id timestamp) =>
      let msg : Message :=
        { message_id := "system-" ++ toString now
          chat_id := chat_id
          sender_id := "0"
          content := content
          created_at := timestamp
          typ := "system"
          sender_username := none, sender_name := none
          upload_status := none, s3_bucket := none, s3_key := none }
      ({ s with store := s.store.addMessage chat_id msg }, [])
  | some (.subscribed c success) =>
      if success then
        ({ s with subscribedChats :=
            if s.subscribedChats.contains c then s.subscribedChats
            else s.subscribedChats ++ [c] }, [])
      else (s, [])
  | some (.unsubscribed c success) =>
      if success then
        ({ s with subscribedChats :=
            s.subscribedChats.filter (fun x => !(x == c)) }, [])
      else (s, [])
  | some (.error _) => (s, [])
  | some (.pong _) => (s, [])
  | some (.invite_received d) =>
      let inv : InviteWithUsers :=
        { id := d.invite_id
          invitor_id := d.invitor_id
          invitor_username := d.invitor_username
          invitor_name := d.invitor_name
          invitee_id := s.userId
          invitee_username := ""
          invitee_name := ""
          status := "pending"
          created_at := d.created_at
          updated_at := d.created_at }
      ({ s with pendingInvites := addPendingInvite s.pendingInvites inv }, [])
  | some (.invite_accepted d) =>
      ({ s with sentInvites :=
          updateSentInviteStatus s.sentInvites d.invite_id "accepted" }, [])
  | some (.invite_rejected d) =>
      ({ s with sentInvites :=
          updateSentInviteStatus s.sentInvites d.invite_id "rejected" }, [])

/-- sendMessage of the user-centric reconnecting hook: nothing is sent when
the transport is not open; otherwise one message frame with chat_id,
content and the sender identity from the chat store is sent and the chat is
bumped, with no wait for a server echo. -/
def sendMessage (s : Session) (chatId content : String) :
    Session × List OutFrame :=
  if s.wsOpen then
    ({ s with store := s.store.bumpChat chatId },
      [{ typ := "message"
         chat_id := some chatId
         content := some content
         message_id := none
         recipient_id := none
         sender_username := s.store.username
         sender_name := s.store.name }])
  else (s, [])

/-- sendMessage of the older user-centric hook variant (no sender identity
fields on the frame). -/
def sendMessageOld (wsOpen : Bool) (st : ChatState)
    (chatId content : String) : ChatState × List OutFrame :=
  if wsOpen then
    (st.bumpChat chatId,
      [{ emptyFrame "message" with
          chat_id := some chatId, content := some content }])
  else (st, [])

/-- Inbound frame of the legacy per-chat hook (types WSMessage of the
string-id variant): a type tag plus optional payload fields.  Field named
typ embeds the JSON field named type. -/
structure LegacyWSMessage where
  typ : String
  content : Option String
  message_id : Option String
  sender_id : Option String
  chat_id : Option String
  created_at : Option String
  timestamp : Option String
  deriving Repr, DecidableEq

/-- JS truthiness of an optional string field: present and non-empty. -/
def jsTruthy : Option String → Bool
  | none => false
  | some s => !(s == "")

/-- The JS or-else idiom on an optional string: the value when truthy,
else the default. -/
def jsOr (o : Option String) (d : String) : String :=
  match o with
  | none => d
  | some s => if s == "" then d else s

/-- handleMessage of the legacy per-chat useWebSocket hook.  chatId and
userId are the hook options; now embeds Date.now() and nowIso the fresh ISO
timestamp; wsPresent embeds wsRef.current being non-null; raw is none when
JSON.parse throws (caught, logging only).  A live message frame is merged
under the hook chatId with defaults for missing fields, and acknowledged
with a frame of type ack-message-recieved only when the frame carried a
message_id. -/
def legacyHandleMessage (chatId userId : String) (now : Nat)
    (nowIso : String) (wsPresent : Bool) (st : ChatState)
    (raw : Option LegacyWSMessage) : ChatState × List OutFrame :=
  match raw with
  | none => (st, [])
  | some data =>
      if data.typ == "message" && jsTruthy data.content then
        let message : Message :=
          { message_id := jsOr data.message_id ("msg-" ++ toString now)
            chat_id := jsOr data.chat_id chatId
            sender_id := jsOr data.sender_id "unknown"
            content := data.content.getD ""
            created_at := jsOr data.created_at nowIso
            typ := "message"
            sender_username := none, sender_name := none
            upload_status := none, s3_bucket := none, s3_key := none }
        let st1 := (st.addMessage chatId message).bumpChat chatId
        let frames :=
          if wsPresent && jsTruthy data.message_id then
            [{ typ := "ack-message-recieved"
               chat_id := none
               content := none
               message_id := data.message_id
               recipient_id := some userId
               sender_username := none
               sender_name := none }]
          else []
        (st1, frames)
      else if data.typ == "system" && jsTruthy data.content then
        let message : Message :=
          { message_id := "system-" ++ toString now
            chat_id := chatId
            sender_id := "system"
            content := data.content.getD ""
            created_at := jsOr data.timestamp nowIso
            typ := "system"
            sender_username := none, sender_name := none
            upload_status := none, s3_bucket := none, s3_key := none }
        (st.addMessage chatId message, [])
      else (st, [])

/-- One failed reconnection cycle: an unclean close followed, when a timer
was scheduled, by that timer firing (attempt bump plus a fresh connect that
fails again).  The second component is the delay the close scheduled. -/
def failStep (s : Session) : Session × Option Nat :=
  let r := wsOnClose s false
  match r.2 with
  | some _ => (fireReconnect r.1, r.2)
  | none => r

/-- Iterated failed reconnection cycles, collecting the scheduled delay of
each cycle. -/
def failRun : Session → Nat → Session × List (Option Nat)
  | s, 0 => (s, [])
  | s, Nat.succ k =>
      let r := failStep s
      let rest := failRun r.1 k
      (rest.1, r.2 :: rest.2)

/-- An empty chat store. -/
def emptyStore : ChatState :=
  { userId := none, username := none, name := none, chats := [],
    selectedChatId := none, messagesByChat := fun _ => [] }

/-- A freshly opened session fixture used by the witnesses. -/
def initSession : Session :=
  { userId := 7, store := emptyStore, pendingInvites := [],
    sentInvites := [], wsOpen := true, isConnected := true,
    isSyncing := false, subscribedChats := [], reconnectAttempts := 0,
    reconnectTimer := none, shouldReconnect := true }

/-- A concrete message fixture used by the witnesses. -/
def msgW : Message :=
  { message_id := "m1", chat_id := "c1", sender_id := "u2",
    content := "hi", created_at := "t1", typ := "message",
    sender_username := none, sender_name := none, upload_status := none,
    s3_bucket := none, s3_key := none }

lemma ChatState.bumpChat_messagesByChat (st : ChatState) (c : String) :
    (st.bumpChat c).messagesByChat = st.messagesByChat := by
  unfold ChatState.bumpChat
  cases st.chats.find? (fun ch => ch.id == c) <;> rfl

lemma addMessage_messagesByChat_other (st : ChatState) (c c2 : String)
    (m : Message) (h : c2 ≠ c) :
    (st.addMessage c m).messagesByChat c2 = st.messagesByChat c2 := by
  simp [ChatState.addMessage, h]

lemma addMessage_preserves_mem (st : ChatState) (c2 : String) (m : Message)
    (cid id : String) (h : ∃ x ∈ st.messagesByChat cid, x.message_id = id) :
    ∃ x ∈ (st.addMessage c2 m).messagesByChat cid, x.message_id = id := by
  by_cases hc : cid = c2
  · subst hc
    rw [addMessage_messagesByChat_self]
    exact mem_id_addMessageList_mono _ _ _ h
  · rw [addMessage_messagesByChat_other st c2 cid m hc]
    exact h

lemma syncStep_fst_store (acc : Session × List OutFrame) (it : InboxItem) :
    (syncStep acc it).1.store =
      ((acc.1.store.addMessage it.chat_id
        (inboxItemToMessage it)).bumpChat it.chat_id) := rfl

lemma syncStep_fst_wsOpen (acc : Session × List OutFrame) (it : InboxItem) :
    (syncStep acc it).1.wsOpen = acc.1.wsOpen := rfl

lemma syncStep_fst_reconnectAttempts (acc : Session × List OutFrame)
    (it : InboxItem) :
    (syncStep acc it).1.reconnectAttempts = acc.1.reconnectAttempts := rfl

lemma syncFold_fst_wsOpen (items : List InboxItem)
    (acc : Session × List OutFrame) :
    (items.foldl syncStep acc).1.wsOpen = acc.1.wsOpen := by
  induction items generalizing acc with
  | nil => rfl
  | cons it rest ih =>
      rw [List.foldl_cons, ih, syncStep_fst_wsOpen]

lemma syncFold_fst_reconnectAttempts (items : List InboxItem)
    (acc : Session × List OutFrame) :
    (items.foldl syncStep acc).1.reconnectAttempts =
      acc.1.reconnectAttempts := by
  induction items generalizing acc with
  | nil => rfl
  | cons it rest ih =>
      rw [List.foldl_cons, ih, syncStep_fst_reconnectAttempts]

lemma syncStep_snd_of_wsOpen (acc : Session × List OutFrame)
    (it : InboxItem) (h : acc.1.wsOpen = true) :
    (syncStep acc it).2 = acc.2 ++ [ackFrame it.message_id] := by
  simp [syncStep, h]

lemma syncFold_frames (items : List InboxItem)
    (acc : Session × List OutFrame) (h : acc.1.wsOpen = true) :
    (items.foldl syncStep acc).2 =
      acc.2 ++ items.map (fun it => ackFrame it.message_id) := by
  induction items generalizing acc with
  | nil => simp
  | cons it rest ih =>
      rw [List.foldl_cons,
        ih (syncStep acc it) (by rw [syncStep_fst_wsOpen]; exact h),
        syncStep_snd_of_wsOpen acc it h]
      simp

lemma syncStep_preserves_mem (acc : Session × List OutFrame)
    (it : InboxItem) (cid id : String)
    (h : ∃ x ∈ acc.1.store.messagesByChat cid, x.message_id = id) :
    ∃ x ∈ (syncStep acc it).1.store.messagesByChat cid,
      x.message_id = id := by
  rw [syncStep_fst_store, ChatState.bumpChat_messagesByChat]
  exact addMessage_preserves_mem _ _ _ _ _ h

lemma syncStep_inserts (acc : Session × List OutFrame) (it : InboxItem) :
    ∃ x ∈ (syncStep acc it).1.store.messagesByChat it.chat_id,
      x.message_id = it.message_id := by
  rw [syncStep_fst_store, ChatState.bumpChat_messagesByChat,
    addMessage_messagesByChat_self]
  have h := mem_id_addMessageList
    (acc.1.store.messagesByChat it.chat_id) (inboxItemToMessage it)
  simpa [inboxItemToMessage] using h

lemma syncFold_preserves_mem (items : List InboxItem)
    (acc : Session × List OutFrame) (cid id : String)
    (h : ∃ x ∈ acc.1.store.messagesByChat cid, x.message_id = id) :
    ∃ x ∈ (items.foldl syncStep acc).1.store.messagesByChat cid,
      x.message_id = id := by
  induction items generalizing acc with
  | nil => exact h
  | cons it rest ih =>
      rw [List.foldl_cons]
      exact ih _ (syncStep_preserves_mem acc it cid id h)

lemma syncFold_mem (items : List InboxItem)
    (acc : Session × List OutFrame) :
    ∀ it ∈ items,
      ∃ x ∈ (items.foldl syncStep acc).1.store.messagesByChat it.chat_id,
        x.message_id = it.message_id := by
  induction items generalizing acc with
  | nil => intro it h; simp at h
  | cons it0 rest ih =>
      intro it hmem
      rw [List.foldl_cons]
      rcases List.mem_cons.mp hmem with h0 | hr
      · subst h0
        exact syncFold_preserves_mem rest _ _ _ (syncStep_inserts acc it)
      · exact ih _ it hr

lemma syncInbox_fst_reconnectAttempts (s : Session)
    (items : List InboxItem) :
    (syncInbox s items).1.reconnectAttempts = s.reconnectAttempts := by
  unfold syncInbox
  by_cases h : s.wsOpen = true
  · simp only [h, if_true]
    exact syncFold_fst_reconnectAttempts items _
  · have hb : s.wsOpen = false := by
      cases hw : s.wsOpen
      · rfl
      · exact absurd hw h
    simp [hb]

/-- C1: delivering the same message (same message_id) to a client twice,
merging it through addMessage once as a live event and once as a sync item,
leaves exactly one entry with that message_id in the chat's local list (the
second merge replaces the existing entry, so it does not even change the
length of the list), provided the list did not already hold duplicate
entries for that id. -/
theorem addMessage_twice_idempotent (s : ChatState) (c : String)
    (m : Message)
    (h : countId (s.messagesByChat c) m.message_id ≤ 1) :
    countId (((s.addMessage c m).addMessage c m).messagesByChat c)
        m.message_id = 1
    ∧ (((s.addMessage c m).addMessage c m).messagesByChat c).length
        = ((s.addMessage c m).messagesByChat c).length := by
  have e1 : (s.addMessage c m).messagesByChat c =
      addMessageList (s.messagesByChat c) m :=
    addMessage_messagesByChat_self s c m
  have e2 : ((s.addMessage c m).addMessage c m).messagesByChat c =
      addMessageList (addMessageList (s.messagesByChat c) m) m := by
    rw [addMessage_messagesByChat_self, e1]
  have c1 : countId (addMessageList (s.messagesByChat c) m) m.message_id
      = 1 := by
    rw [countId_addMessageList]
    rcases Nat.lt_or_ge (countId (s.messagesByChat c) m.message_id) 1 with
      hlt | hge
    · have h0 : countId (s.messagesByChat c) m.message_id = 0 :=
        Nat.lt_one_iff.mp hlt
      simp [h0]
    · have h1 : countId (s.messagesByChat c) m.message_id = 1 :=
        Nat.le_antisymm h hge
      simp [h1]
  constructor
  · rw [e2, countId_addMessageList, c1]
    simp
  · rw [e2, e1]
    exact length_addMessageList_of_mem _ _ (by rw [c1]; exact one_ne_zero)

/-- C1 witness: the double merge of a fresh message into an empty store
leaves exactly one entry for its id. -/
theorem addMessage_twice_idempotent_witness :
    countId (((emptyStore.addMessage "c1" msgW).addMessage "c1"
        msgW).messagesByChat "c1") msgW.message_id = 1
    ∧ (((emptyStore.addMessage "c1" msgW).addMessage "c1"
        msgW).messagesByChat "c1").length
        = ((emptyStore.addMessage "c1" msgW).messagesByChat "c1").length :=
  addMessage_twice_idempotent emptyStore "c1" msgW (by decide)

/-- C9: addMessage changes at most the message list of the targeted chat
key: every other chat's list and the chats, userId, username, name and
selectedChatId fields of the store are unchanged; and when the incoming
message_id is already present in that chat's list, the length and the
sequence of message ids of the list are also unchanged. -/
theorem addMessage_frame_condition (s : ChatState) (c : String)
    (m : Message) :
    (∀ c2, c2 ≠ c →
      (s.addMessage c m).messagesByChat c2 = s.messagesByChat c2)
    ∧ (s.addMessage c m).chats = s.chats
    ∧ (s.addMessage c m).userId = s.userId
    ∧ (s.addMessage c m).username = s.username
    ∧ (s.addMessage c m).name = s.name
    ∧ (s.addMessage c m).selectedChatId = s.selectedChatId
    ∧ (countId (s.messagesByChat c) m.message_id ≠ 0 →
        ((s.addMessage c m).messagesByChat c).length
            = (s.messagesByChat c).length
        ∧ ((s.addMessage c m).messagesByChat c).map
              (fun x => x.message_id)
            = (s.messagesByChat c).map (fun x => x.message_id)) := by
  refine ⟨?_, rfl, rfl, rfl, rfl, rfl, ?_⟩
  · intro c2 h
    exact addMessage_messagesByChat_other s c c2 m h
  · intro h
    rw [addMessage_messagesByChat_self]
    exact ⟨length_addMessageList_of_mem _ _ h,
      map_id_addMessageList_of_mem _ _ h⟩

/-- A store fixture holding one message under chat c1. -/
def storeW : ChatState :=
  { emptyStore with
    messagesByChat := fun c => if c = "c1" then [msgW] else [] }

/-- C9 witness: a concrete instance of the frame condition, with the
already-present branch discharged on a store holding the id. -/
theorem addMessage_frame_condition_witness :
    (storeW.addMessage "c1" msgW).messagesByChat "c2"
        = storeW.messagesByChat "c2"
    ∧ ((storeW.addMessage "c1" msgW).messagesByChat "c1").length
        = (storeW.messagesByChat "c1").length :=
  ⟨(addMessage_frame_condition storeW "c1" msgW).1 "c2" (by decide),
    ((addMessage_frame_condition storeW "c1" msgW).2.2.2.2.2.2
      (by decide)).1⟩

/-- C10: an inbound transport frame whose payload is not parseable as JSON
(raw = none, the JSON.parse throw caught by the handler) leaves all client
state unchanged and sends nothing, in both the user-centric handleMessage
and the legacy per-chat variant. -/
theorem unparseable_frame_is_noop (s : Session) (now : Nat)
    (chatId userId : String) (n2 : Nat) (nowIso : String)
    (wsPresent : Bool) (st : ChatState) :
    handleMessage s now none = (s, [])
    ∧ legacyHandleMessage chatId userId n2 nowIso wsPresent st none
        = (st, []) :=
  ⟨rfl, rfl⟩

/-- A concrete live message frame for the legacy per-chat hook, carrying a
message_id and content. -/
def legacyFrameW : LegacyWSMessage :=
  { typ := "message", content := some "hi", message_id := some "m1",
    sender_id := some "u2", chat_id := some "c1",
    created_at := some "t1", timestamp := none }

/-- A concrete live message frame for the user-centric hook. -/
def wireW : WireChatMessage :=
  { message_id := "m1", chat_id := "c1", sender_id := "2",
    sender_username := none, sender_name := none, content := "hi",
    created_at := "t1", upload_status := none, s3_bucket := none,
    s3_key := none }

/-- C3: evaluation at the failing input.  The user-centric session
acknowledges a merged live message with a frame whose type field is exactly
ack-message-received, but the legacy per-chat variant, on the same logical
input, sends its acknowledgement with the misspelled type
ack-message-recieved, which differs from the documented
ack-message-received frame type. -/
theorem legacy_ack_type_misspelled :
    (handleMessage initSession 0 (some (WSMessage.message wireW))).2.map
        (fun f => f.typ) = ["ack-message-received"]
    ∧ (legacyHandleMessage "c1" "u7" 0 "t0" true emptyStore
        (some legacyFrameW)).2.map (fun f => f.typ)
        = ["ack-message-recieved"]
    ∧ "ack-message-recieved" ≠ "ack-message-received" :=
  ⟨rfl, rfl, by decide⟩

/-- C5: sendMessage over an open transport emits exactly one frame of type
message carrying the chat_id and content (the reconnecting variant also
attaches the sender identity from the store), and returns without waiting
for any server echo; over a non-open transport it transmits nothing and
leaves the state unchanged.  The older user-centric variant behaves the
same without the identity fields. -/
theorem sendMessage_one_frame (s : Session) (st : ChatState)
    (c t : String) :
    (s.wsOpen = true →
      (sendMessage s c t).2 =
        [{ typ := "message", chat_id := some c, content := some t,
           message_id := none, recipient_id := none,
           sender_username := s.store.username,
           sender_name := s.store.name }])
    ∧ (s.wsOpen = false → sendMessage s c t = (s, []))
    ∧ (sendMessageOld true st c t).2 =
        [{ emptyFrame "message" with
            chat_id := some c, content := some t }]
    ∧ sendMessageOld false st c t = (st, []) := by
  refine ⟨?_, ?_, rfl, rfl⟩
  · intro h; simp [sendMessage, h]
  · intro h; simp [sendMessage, h]

/-- C5 witness: the frame emitted from the open fixture session and the
silence of a closed one. -/
theorem sendMessage_one_frame_witness :
    (sendMessage initSession "c1" "hi").2 =
      [{ typ := "message", chat_id := some "c1", content := some "hi",
         message_id := none, recipient_id := none,
         sender_username := initSession.store.username,
         sender_name := initSession.store.name }]
    ∧ sendMessage (teardown initSession) "c1" "hi"
        = (teardown initSession, []) :=
  ⟨(sendMessage_one_frame initSession emptyStore "c1" "hi").1 rfl,
    (sendMessage_one_frame (teardown initSession) emptyStore "c1"
      "hi").2.1 rfl⟩

/-- C6: a clean close (wasClean true) only transitions the session to the
disconnected shape, clearing isConnected and the subscription list, and
schedules no reconnect; whenever a close event schedules a reconnect delay,
the close was unclean. -/
theorem clean_close_never_reconnects (s : Session) (w : Bool) :
    wsOnClose s true =
      ({ s with wsOpen := false, isConnected := false,
                subscribedChats := [] }, none)
    ∧ ((wsOnClose s w).2.isSome → w = false) := by
  constructor
  · simp [wsOnClose]
  · intro h
    cases w
    · rfl
    · have e : (wsOnClose s true).2 = none := by simp [wsOnClose]
      rw [e] at h
      simp at h

/-- C6 witness: the clean-close shape on the fixture session, and an
unclean close of it schedules a delay, so the implication applies with
wasClean false. -/
theorem clean_close_never_reconnects_witness :
    wsOnClose initSession true =
      ({ initSession with
          wsOpen := false, isConnected := false,
          subscribedChats := [] }, none)
    ∧ (false : Bool) = false :=
  ⟨(clean_close_never_reconnects initSession false).1,
    (clean_close_never_reconnects initSession false).2 rfl⟩

/-- The delays scheduled by a sequence of close events hitting a session,
threading the state. -/
def closeRun : Session → List Bool → List (Option Nat)
  | _, [] => []
  | s, w :: ws =>
      let r := wsOnClose s w
      r.2 :: closeRun r.1 ws

lemma wsOnClose_of_no_reconnect (s : Session) (w : Bool)
    (h : s.shouldReconnect = false) :
    (wsOnClose s w).2 = none
    ∧ (wsOnClose s w).1.shouldReconnect = false
    ∧ (wsOnClose s w).1.reconnectTimer = s.reconnectTimer := by
  refine ⟨?_, ?_, ?_⟩ <;> simp [wsOnClose, h]

lemma closeRun_of_no_reconnect (ws : List Bool) :
    ∀ s : Session, s.shouldReconnect = false →
      closeRun s ws = List.replicate ws.length none := by
  induction ws with
  | nil => intro s _; rfl
  | cons w rest ih =>
      intro s h
      have h1 := wsOnClose_of_no_reconnect s w h
      simp only [closeRun, h1.1, List.length_cons, List.replicate_succ]
      rw [ih _ h1.2.1]

/-- C7: after the effect cleanup tears the session down, the pending
reconnect timer (if any) is cancelled and the reconnect flag is cleared, so
no close event arriving afterwards, in any number and mix of clean and
unclean closes, ever schedules a reconnect. -/
theorem teardown_cancels_reconnect (s : Session) (ws : List Bool) :
    (teardown s).reconnectTimer = none
    ∧ (teardown s).shouldReconnect = false
    ∧ closeRun (teardown s) ws = List.replicate ws.length none :=
  ⟨rfl, rfl, closeRun_of_no_reconnect ws (teardown s) rfl⟩

lemma failStep_go (s : Session) (h2 : s.shouldReconnect = true)
    (h : s.reconnectAttempts < MAX_RECONNECT_ATTEMPTS) :
    failStep s =
      ({ s with wsOpen := false, isConnected := false,
                subscribedChats := [], reconnectTimer := none,
                reconnectAttempts := s.reconnectAttempts + 1 },
        some (BASE_RECONNECT_DELAY * 2 ^ s.reconnectAttempts)) := by
  simp [failStep, wsOnClose, fireReconnect, h2, h]

lemma failStep_stop (s : Session)
    (h : ¬ s.reconnectAttempts < MAX_RECONNECT_ATTEMPTS) :
    failStep s =
      ({ s with wsOpen := false, isConnected := false,
                subscribedChats := [] }, none) := by
  simp [failStep, wsOnClose, h]

/-- C2: starting from a session with a zero attempt counter (as after any
successful open, which resets it) that still wants to reconnect, six
successive unclean-close cycles schedule reconnect delays of exactly
1000 ms, 2000 ms, 4000 ms, 8000 ms and 16000 ms and then nothing: after
MAX_RECONNECT_ATTEMPTS failed attempts the session stops retrying, stays
disconnected with no pending timer, a further unclean close schedules
nothing, and any successful open resets the attempt counter to zero. -/
theorem reconnect_backoff_schedule (s : Session)
    (h1 : s.reconnectAttempts = 0) (h2 : s.shouldReconnect = true) :
    (failRun s 6).2 =
      [some 1000, some 2000, some 4000, some 8000, some 16000, none]
    ∧ (failRun s 6).1.isConnected = false
    ∧ (failRun s 6).1.reconnectTimer = none
    ∧ (failRun s 6).1.reconnectAttempts = MAX_RECONNECT_ATTEMPTS
    ∧ (failStep (failRun s 6).1).2 = none
    ∧ (∀ items, (wsOnOpen s items).1.reconnectAttempts = 0) := by
  cases s with
  | mk uid st pi si w ic sync subs ra rt sr =>
      simp only at h1 h2
      subst h1; subst h2
      refine ⟨?_, ?_, ?_, ?_, ?_, ?_⟩
      · simp [failRun, failStep, wsOnClose, fireReconnect,
          MAX_RECONNECT_ATTEMPTS, BASE_RECONNECT_DELAY]
      · simp [failRun, failStep, wsOnClose, fireReconnect,
          MAX_RECONNECT_ATTEMPTS, BASE_RECONNECT_DELAY]
      · simp [failRun, failStep, wsOnClose, fireReconnect,
          MAX_RECONNECT_ATTEMPTS, BASE_RECONNECT_DELAY]
      · simp [failRun, failStep, wsOnClose, fireReconnect,
          MAX_RECONNECT_ATTEMPTS, BASE_RECONNECT_DELAY]
      · simp [failRun, failStep, wsOnClose, fireReconnect,
          MAX_RECONNECT_ATTEMPTS, BASE_RECONNECT_DELAY]
      · intro items
        rw [wsOnOpen, syncInbox_fst_reconnectAttempts]

/-- C2 witness: the backoff schedule materialised on the fixture session. -/
theorem reconnect_backoff_schedule_witness :
    (failRun initSession 6).2 =
      [some 1000, some 2000, some 4000, some 8000, some 16000, none]
    ∧ (failRun initSession 6).1.reconnectAttempts = MAX_RECONNECT_ATTEMPTS :=
  ⟨(reconnect_backoff_schedule initSession rfl rfl).1,
    (reconnect_backoff_schedule initSession rfl rfl).2.2.2.1⟩

/-- C4: on every transition into the open state, wsOnOpen runs the inbox
sync at once: every item of the sync response is acknowledged individually
with an ack-message-received frame carrying its message_id, every item ends
up merged in the local collection of its chat through the store addMessage
path, and the sync completes with isSyncing lowered. -/
theorem open_triggers_sync_and_acks (s : Session)
    (items : List InboxItem) :
    (wsOnOpen s items).2 = items.map (fun it => ackFrame it.message_id)
    ∧ (∀ it ∈ items,
        ∃ x ∈ (wsOnOpen s items).1.store.messagesByChat it.chat_id,
          x.message_id = it.message_id)
    ∧ (∀ id, (ackFrame id).typ = "ack-message-received"
        ∧ (ackFrame id).message_id = some id)
    ∧ (wsOnOpen s items).1.isSyncing = false := by
  have e : wsOnOpen s items =
      ({ (items.foldl syncStep
            ({ s with
                wsOpen := true, isConnected := true,
                reconnectAttempts := 0, isSyncing := true }, [])).1 with
          isSyncing := false },
        (items.foldl syncStep
            ({ s with
                wsOpen := true, isConnected := true,
                reconnectAttempts := 0, isSyncing := true }, [])).2) := rfl
  refine ⟨?_, ?_, fun id => ⟨rfl, rfl⟩, ?_⟩
  · rw [e]
    have h := syncFold_frames items
      ({ s with
          wsOpen := true, isConnected := true,
          reconnectAttempts := 0, isSyncing := true }, []) rfl
    simpa using h
  · intro it hit
    have h := syncFold_mem items
      ({ s with
          wsOpen := true, isConnected := true,
          reconnectAttempts := 0, isSyncing := true }, []) it hit
    rw [e]
    simpa using h
  · rw [e]

/-- A concrete sync item fixture. -/
def itemW : InboxItem :=
  { message_id := "m1", chat_id := "c1", sender_id := "u2",
    content := "hi", created_at := "t1", upload_status := none,
    s3_bucket := none, s3_object_key := none, s3_key := none }

/-- C4 witness: syncing a single item from the fixture session sends its
ack and lands it in the chat's collection. -/
theorem open_triggers_sync_and_acks_witness :
    (wsOnOpen initSession [itemW]).2 = [ackFrame "m1"]
    ∧ ∃ x ∈ (wsOnOpen initSession [itemW]).1.store.messagesByChat "c1",
        x.message_id = "m1" :=
  ⟨((open_triggers_sync_and_acks initSession [itemW]).1).trans rfl,
    (open_triggers_sync_and_acks initSession [itemW]).2.1 itemW
      (by simp)⟩

/-- C8 counterexample: the claim that subscribedChats never contains
duplicate chat identifiers is false as stated, because a connected
handshake installs the server-provided list verbatim: delivering a
connected frame whose subscribed_chats list repeats c1 leaves a duplicated
subscription list. -/
theorem subscribedChats_dup_from_connected :
    ¬ (handleMessage initSession 0
        (some (WSMessage.connected 1 ["c1", "c1"]
          "t0"))).1.subscribedChats.Nodup := by
  have e : (handleMessage initSession 0
      (some (WSMessage.connected 1 ["c1", "c1"] "t0"))).1.subscribedChats
      = ["c1", "c1"] := rfl
  rw [e]
  decide

/-- C8 amended: provided every connected handshake delivered carries a
duplicate-free subscribed_chats list, the subscribedChats list never
contains duplicates: a subscribed event with success adds the chat only if
absent, an unsubscribed event with success removes every occurrence,
events without success leave the whole state unchanged, and every
transport close resets the list to empty. -/
theorem subscribedChats_nodup_preserved (s : Session) (now : Nat)
    (raw : Option WSMessage) (w : Bool) (c : String)
    (h1 : s.subscribedChats.Nodup)
    (h2 : ∀ uid cs ts,
      raw = some (WSMessage.connected uid cs ts) → cs.Nodup) :
    (handleMessage s now raw).1.subscribedChats.Nodup
    ∧ (wsOnClose s w).1.subscribedChats = []
    ∧ (handleMessage s now (some (WSMessage.subscribed c false))).1 = s
    ∧ (handleMessage s now (some (WSMessage.unsubscribed c false))).1
        = s := by
  refine ⟨?_, ?_, rfl, rfl⟩
  · match raw with
    | none => exact h1
    | some (.connected uid cs ts) => exact h2 uid cs ts rfl
    | some (.message wm) => exact h1
    | some (.system a b t) => exact h1
    | some (.subscribed c2 success) =>
        cases success with
        | false => exact h1
        | true =>
            by_cases hc : s.subscribedChats.contains c2
            · have hmem : c2 ∈ s.subscribedChats := by simpa using hc
              simpa [handleMessage, hmem] using h1
            · have hmem : c2 ∉ s.subscribedChats := by simpa using hc
              have hap : (s.subscribedChats ++ [c2]).Nodup :=
                h1.append (by simp) (by simpa using hmem)
              simpa [handleMessage, hmem] using hap
    | some (.unsubscribed c2 success) =>
        cases success with
        | false => exact h1
        | true => exact h1.filter _
    | some (.error a) => exact h1
    | some (.pong t) => exact h1
    | some (.invite_received d) => exact h1
    | some (.invite_accepted d) => exact h1
    | some (.invite_rejected d) => exact h1
  · by_cases hcond : (!w && s.shouldReconnect &&
        decide (s.reconnectAttempts < MAX_RECONNECT_ATTEMPTS)) = true
    · simp [wsOnClose, hcond]
    · simp [wsOnClose, hcond]

/-- C8 witness: the amended invariant applied at a successful subscribe on
the fixture session and a close of it. -/
theorem subscribedChats_nodup_preserved_witness :
    (handleMessage initSession 0
        (some (WSMessage.subscribed "c1" true))).1.subscribedChats.Nodup
    ∧ (wsOnClose initSession true).1.subscribedChats = [] :=
  ⟨(subscribedChats_nodup_preserved initSession 0
      (some (WSMessage.subscribed "c1" true)) true "c1" (by decide)
      (by intro uid cs ts h; simp at h)).1,
    (subscribedChats_nodup_preserved initSession 0
      (some (WSMessage.subscribed "c1" true)) true "c1" (by decide)
      (by intro uid cs ts h; simp at h)).2.1⟩
